import Mathlib

/-!
Verification development for the ToneCraft audio equalizer page
(src/app/page.tsx). The definitions below are a shallow embedding of the
logic of that file: the Web Audio node graph is modelled as a list of
directed edges between node identifiers, filter and compressor parameters
as rational numbers, the WAV serializer as a function from a sample
buffer to a byte list, and the asynchronous steps of the export pipeline
as explicit Except-valued oracles.
-/

namespace ToneCraft

/-- Identifiers of the Web Audio nodes that the page creates. -/
inductive NodeId
  | source
  | bassFilter
  | midFilter
  | trebleFilter
  | comp
  | masterGain
  | destination
deriving DecidableEq

/-- A directed connection between two audio nodes, as made by node.connect. -/
abbrev Edge := NodeId × NodeId

/-- a.connect(b): appends the new connection to the current connection set. -/
def connectNode (a b : NodeId) (es : List Edge) : List Edge := es ++ [(a, b)]

/-- n.disconnect(): removes every outgoing connection of node n. -/
def disconnectNode (n : NodeId) (es : List Edge) : List Edge :=
  es.filter (fun e => e.1 ≠ n)

/-- connectAudioGraph (page.tsx lines 131-158): disconnects the six stages in
source order (source, bassFilter, midFilter, trebleFilter, masterGain, comp),
then wires either the bypass path or the full chain. -/
def connectAudioGraph (bypass : Bool) (es : List Edge) : List Edge :=
  let es1 := disconnectNode .source es
  let es2 := disconnectNode .bassFilter es1
  let es3 := disconnectNode .midFilter es2
  let es4 := disconnectNode .trebleFilter es3
  let es5 := disconnectNode .masterGain es4
  let es6 := disconnectNode .comp es5
  if bypass then
    connectNode .source .destination es6
  else
    connectNode .masterGain .destination
      (connectNode .comp .masterGain
        (connectNode .trebleFilter .comp
          (connectNode .midFilter .trebleFilter
            (connectNode .bassFilter .midFilter
              (connectNode .source .bassFilter es6)))))

/-- The full six-stage chain topology built by the else branch of
connectAudioGraph and by the offline graph of saveAudio. -/
def chainEdges : List Edge :=
  [(.source, .bassFilter), (.bassFilter, .midFilter), (.midFilter, .trebleFilter),
   (.trebleFilter, .comp), (.comp, .masterGain), (.masterGain, .destination)]

/-- The bypass topology: the source wired directly to the destination. -/
def bypassEdges : List Edge := [(.source, .destination)]

lemma connectAudioGraph_disconnects (es : List Edge)
    (h : ∀ e ∈ es, e.1 ≠ NodeId.destination) :
    disconnectNode .comp (disconnectNode .masterGain (disconnectNode .trebleFilter
      (disconnectNode .midFilter (disconnectNode .bassFilter
        (disconnectNode .source es))))) = [] := by
  induction es with
  | nil => rfl
  | cons e es ih =>
    have he : e.1 ≠ NodeId.destination := h e (List.mem_cons_self e es)
    have ihe := ih (fun x hx => h x (List.mem_cons_of_mem e hx))
    rcases e with ⟨a, b⟩
    cases a
    case destination => exact absurd rfl he
    all_goals simp [disconnectNode, List.filter_cons, decide_not] at ihe ⊢
    all_goals exact ihe

lemma connectAudioGraph_canonical (b : Bool) (es : List Edge)
    (h : ∀ e ∈ es, e.1 ≠ NodeId.destination) :
    connectAudioGraph b es = if b then bypassEdges else chainEdges := by
  simp only [connectAudioGraph]
  rw [connectAudioGraph_disconnects es h]
  cases b <;> rfl

lemma canonical_no_dest (b : Bool) :
    ∀ e ∈ (if b then bypassEdges else chainEdges), e.1 ≠ NodeId.destination := by
  cases b <;> decide

/-- C5: on a fully initialized node set, connectAudioGraph first disconnects all
six stages and then produces exactly one of the two valid topologies: the bypass
path when the bypass flag is true, the full six-stage chain when it is false;
the resulting connection set is duplicate-free, for every starting connection
set whose edges leave the six owned stages. -/
theorem connectAudioGraph_topologies (b : Bool) (es : List Edge)
    (h : ∀ e ∈ es, e.1 ≠ NodeId.destination) :
    connectAudioGraph b es = (if b then bypassEdges else chainEdges)
    ∧ (connectAudioGraph b es).Nodup := by
  refine ⟨connectAudioGraph_canonical b es h, ?_⟩
  rw [connectAudioGraph_canonical b es h]
  cases b <;> decide

/-- Witness for C5 at a concrete starting connection set. -/
theorem connectAudioGraph_topologies_witness :
    connectAudioGraph true [(NodeId.source, NodeId.destination)]
        = (if true then bypassEdges else chainEdges)
    ∧ (connectAudioGraph true [(NodeId.source, NodeId.destination)]).Nodup :=
  connectAudioGraph_topologies true [(NodeId.source, NodeId.destination)] (by decide)

/-- C6: starting from any reachable post-rewire topology, toggling the bypass
flag twice (each toggle applying connectAudioGraph) returns the connection
topology to its pre-toggle value. -/
theorem connectAudioGraph_double_toggle (b : Bool) (es : List Edge)
    (h : ∀ e ∈ es, e.1 ≠ NodeId.destination) :
    connectAudioGraph b (connectAudioGraph (!b) (connectAudioGraph b es))
      = connectAudioGraph b es := by
  rw [connectAudioGraph_canonical b es h,
    connectAudioGraph_canonical (!b) _ (canonical_no_dest b),
    connectAudioGraph_canonical b _ (canonical_no_dest (!b))]

/-- Witness for C6 at a concrete starting connection set. -/
theorem connectAudioGraph_double_toggle_witness :
    connectAudioGraph false (connectAudioGraph (!false) (connectAudioGraph false []))
      = connectAudioGraph false [] :=
  connectAudioGraph_double_toggle false [] (by decide)

/-- Filter kinds of a BiquadFilterNode used by the page (lowpass is the
platform default kind a fresh node starts with). -/
inductive FilterType
  | lowpass
  | lowshelf
  | peaking
  | highshelf
deriving DecidableEq

/-- Parameters of a BiquadFilterNode that the page touches. -/
structure BiquadConfig where
  filterType : FilterType
  frequency : ℚ
  Q : ℚ
  gain : ℚ
deriving DecidableEq

/-- Web Audio platform defaults of a freshly created BiquadFilterNode:
type lowpass, frequency 350 Hz, Q 1, gain 0 dB. -/
def createBiquadFilter : BiquadConfig := ⟨.lowpass, 350, 1, 0⟩

/-- Parameters of the DynamicsCompressorNode that the page touches. -/
structure CompressorConfig where
  threshold : ℚ
  knee : ℚ
  ratioValue : ℚ
  attack : ℚ
  release : ℚ
deriving DecidableEq

/-- Web Audio platform defaults of a freshly created DynamicsCompressorNode. -/
def createDynamicsCompressor : CompressorConfig := ⟨-24, 30, 12, 0.003, 0.25⟩

/-- The compressor configuration written by both graph builders:
threshold -12 dB, knee 6 dB, ratio 3, attack 0.003 s, release 0.25 s. -/
def toneCraftCompressor : CompressorConfig := ⟨-12, 6, 3, 0.003, 0.25⟩

/-- The parameter state of the five effect stages of a built graph. -/
structure AudioGraphNodes where
  bassFilter : BiquadConfig
  midFilter : BiquadConfig
  trebleFilter : BiquadConfig
  masterGain : ℚ
  comp : CompressorConfig
deriving DecidableEq

/-- Node parameters created by initializeAudioContext (page.tsx lines 86-123):
bass lowshelf at 100 Hz, mid peaking at 1000 Hz with Q 1, treble highshelf at
8000 Hz (gains left at the platform default 0), master gain 0.85, and the
fixed compressor settings. -/
def initializeAudioContextNodes : AudioGraphNodes :=
  ⟨⟨.lowshelf, 100, createBiquadFilter.Q, createBiquadFilter.gain⟩,
   ⟨.peaking, 1000, 1, createBiquadFilter.gain⟩,
   ⟨.highshelf, 8000, createBiquadFilter.Q, createBiquadFilter.gain⟩,
   0.85,
   toneCraftCompressor⟩

/-- Connections made right after node creation: initializeAudioContext calls
connectAudioGraph on a node set with no prior connections. -/
def initializeAudioContextEdges (bypass : Bool) : List Edge :=
  connectAudioGraph bypass []

/-- The three user-adjustable band gains, in dB. -/
structure EQSettings where
  bass : ℚ
  mid : ℚ
  treble : ℚ
deriving DecidableEq

/-- The three band names of the equalizer. -/
inductive Band
  | bass
  | mid
  | treble
deriving DecidableEq

/-- Reads one band out of the settings record. -/
def EQSettings.get (s : EQSettings) : Band → ℚ
  | .bass => s.bass
  | .mid => s.mid
  | .treble => s.treble

/-- updateEQValue (page.tsx lines 276-278): functional update of one band of
the settings record, leaving the other fields as they were. The source reads
the new value out of the singleton slider array as value[0]. -/
def updateEQValue (type : Band) (value : ℚ) (prev : EQSettings) : EQSettings :=
  match type with
  | .bass => ⟨value, prev.mid, prev.treble⟩
  | .mid => ⟨prev.bass, value, prev.treble⟩
  | .treble => ⟨prev.bass, prev.mid, value⟩

/-- The gain parameters of the three live filter nodes. -/
structure FilterGains where
  bassGain : ℚ
  midGain : ℚ
  trebleGain : ℚ
deriving DecidableEq

/-- Reads one band gain out of the live filter nodes. -/
def FilterGains.get (g : FilterGains) : Band → ℚ
  | .bass => g.bassGain
  | .mid => g.midGain
  | .treble => g.trebleGain

/-- applyEQSettings (page.tsx lines 160-167): writes all three settings values
into the corresponding live filter gain parameters. -/
def applyEQSettings (s : EQSettings) (_g : FilterGains) : FilterGains :=
  ⟨s.bass, s.mid, s.treble⟩

/-- The offline graph that saveAudio builds (page.tsx lines 298-333): the same
five effect stages with the current EQ gains written into the filters, and the
same six-stage chain of connections, made in the same order. -/
structure OfflineGraph where
  nodes : AudioGraphNodes
  edges : List Edge
deriving DecidableEq

/-- Offline node parameters and connections built by saveAudio from the
EQ settings captured at export time. -/
def saveAudioOfflineGraph (eqs : EQSettings) : OfflineGraph :=
  ⟨⟨⟨.lowshelf, 100, createBiquadFilter.Q, eqs.bass⟩,
    ⟨.peaking, 1000, 1, eqs.mid⟩,
    ⟨.highshelf, 8000, createBiquadFilter.Q, eqs.treble⟩,
    0.85,
    toneCraftCompressor⟩,
   connectNode .masterGain .destination
     (connectNode .comp .masterGain
       (connectNode .trebleFilter .comp
         (connectNode .midFilter .trebleFilter
           (connectNode .bassFilter .midFilter
             (connectNode .source .bassFilter [])))))⟩

/-- C1: both constructed audio graphs (the live graph wired by
initializeAudioContext and connectAudioGraph with bypass off, and the offline
graph built by saveAudio) connect the stages in the fixed order
source, bass lowshelf, mid peaking, treble highshelf, compressor, master gain,
destination, with low shelf corner 100 Hz, peaking center 1000 Hz and Q 1,
high shelf corner 8000 Hz, compressor threshold -12 dB, knee 6 dB, ratio 3,
attack 0.003 s, release 0.25 s, and master gain 0.85 linear. -/
theorem audioGraph_fixed_chain_and_params :
    (initializeAudioContextEdges false = chainEdges
      ∧ initializeAudioContextNodes.bassFilter.filterType = FilterType.lowshelf
      ∧ initializeAudioContextNodes.bassFilter.frequency = 100
      ∧ initializeAudioContextNodes.midFilter.filterType = FilterType.peaking
      ∧ initializeAudioContextNodes.midFilter.frequency = 1000
      ∧ initializeAudioContextNodes.midFilter.Q = 1
      ∧ initializeAudioContextNodes.trebleFilter.filterType = FilterType.highshelf
      ∧ initializeAudioContextNodes.trebleFilter.frequency = 8000
      ∧ initializeAudioContextNodes.comp = ⟨-12, 6, 3, 0.003, 0.25⟩
      ∧ initializeAudioContextNodes.masterGain = 0.85)
    ∧ ∀ eqs : EQSettings,
        (saveAudioOfflineGraph eqs).edges = chainEdges
        ∧ (saveAudioOfflineGraph eqs).nodes.bassFilter.filterType = FilterType.lowshelf
        ∧ (saveAudioOfflineGraph eqs).nodes.bassFilter.frequency = 100
        ∧ (saveAudioOfflineGraph eqs).nodes.midFilter.filterType = FilterType.peaking
        ∧ (saveAudioOfflineGraph eqs).nodes.midFilter.frequency = 1000
        ∧ (saveAudioOfflineGraph eqs).nodes.midFilter.Q = 1
        ∧ (saveAudioOfflineGraph eqs).nodes.trebleFilter.filterType = FilterType.highshelf
        ∧ (saveAudioOfflineGraph eqs).nodes.trebleFilter.frequency = 8000
        ∧ (saveAudioOfflineGraph eqs).nodes.comp = ⟨-12, 6, 3, 0.003, 0.25⟩
        ∧ (saveAudioOfflineGraph eqs).nodes.masterGain = 0.85 :=
  ⟨⟨rfl, rfl, rfl, rfl, rfl, rfl, rfl, rfl, rfl, rfl⟩,
   fun _ => ⟨rfl, rfl, rfl, rfl, rfl, rfl, rfl, rfl, rfl, rfl⟩⟩

/-- Counterexample to C4: in the reachable desynced state where the bass
setting was moved to 5 dB while the filters did not yet exist and the filters
were then created with the default gain 0 (settings ⟨5, 0, 0⟩, live gains
⟨0, 0, 0⟩), updating the mid band to 3 dB makes applyEQSettings write 5 into
the bass filter, so another band's live filter gain does not stay unchanged
as the claim states. -/
theorem updateEQValue_desync_counterexample :
    ¬ ((applyEQSettings (updateEQValue Band.mid 3 ⟨5, 0, 0⟩) ⟨0, 0, 0⟩).get Band.bass
        = (⟨0, 0, 0⟩ : FilterGains).get Band.bass) := by
  decide

/-- C4 (amended): updating one band with a value in the slider range and then
applying the settings sets that band's in-memory setting and live filter gain
to the new value and leaves the other two bands' settings unchanged; the
other bands' live gains are rewritten to their (unchanged) settings values,
so they stay unchanged exactly in states whose live gains already agree with
the settings, which can fail in the reachable window right after graph
creation. -/
theorem updateEQValue_applyEQSettings_effect (band : Band) (v : ℚ)
    (_hlo : -20 ≤ v) (_hhi : v ≤ 20) (s : EQSettings) (g : FilterGains) :
    (updateEQValue band v s).get band = v
    ∧ (applyEQSettings (updateEQValue band v s) g).get band = v
    ∧ ∀ b2, b2 ≠ band →
        (updateEQValue band v s).get b2 = s.get b2
        ∧ (applyEQSettings (updateEQValue band v s) g).get b2 = s.get b2
        ∧ (g.get b2 = s.get b2 →
            (applyEQSettings (updateEQValue band v s) g).get b2 = g.get b2) := by
  refine ⟨?_, ?_, ?_⟩
  · cases band <;> rfl
  · cases band <;> rfl
  · intro b2 hb2
    cases band <;> cases b2 <;>
      first
        | exact absurd rfl hb2
        | exact ⟨rfl, rfl, fun h => by rw [h]; rfl⟩

/-- Witness for C4 (amended): raising the mid band to 3 dB from the flat,
in-sync state, instantiated at the bass band as the untouched one. -/
theorem updateEQValue_applyEQSettings_effect_witness :
    (updateEQValue Band.mid 3 ⟨0, 0, 0⟩).get Band.mid = 3
    ∧ (applyEQSettings (updateEQValue Band.mid 3 ⟨0, 0, 0⟩) ⟨0, 0, 0⟩).get Band.mid = 3
    ∧ (updateEQValue Band.mid 3 ⟨0, 0, 0⟩).get Band.bass
        = (⟨0, 0, 0⟩ : EQSettings).get Band.bass
    ∧ (applyEQSettings (updateEQValue Band.mid 3 ⟨0, 0, 0⟩) ⟨0, 0, 0⟩).get Band.bass
        = (⟨0, 0, 0⟩ : EQSettings).get Band.bass
    ∧ (applyEQSettings (updateEQValue Band.mid 3 ⟨0, 0, 0⟩) ⟨0, 0, 0⟩).get Band.bass
        = (⟨0, 0, 0⟩ : FilterGains).get Band.bass := by
  have E := updateEQValue_applyEQSettings_effect Band.mid 3 (by decide) (by decide)
    ⟨0, 0, 0⟩ ⟨0, 0, 0⟩
  exact ⟨E.1, E.2.1, (E.2.2 Band.bass (by decide)).1,
    (E.2.2 Band.bass (by decide)).2.1,
    (E.2.2 Band.bass (by decide)).2.2 (by decide)⟩

/-- A rendered sample buffer: channel count, frames per channel, sample rate,
and the per-channel float samples (modelled as rationals), indexed as
channelData channel frame. -/
structure AudioBuffer where
  numberOfChannels : Nat
  length : Nat
  sampleRate : Nat
  channelData : Nat → Nat → ℚ

/-- writeString of the serializer: the character codes of the marker text. -/
def writeString (s : List Char) : List Nat := s.map Char.toNat

/-- Little-endian bytes of setUint16 (the stored pattern is the value mod 2^16). -/
def u16le (v : Nat) : List Nat := [v % 256, v / 256 % 256]

/-- Little-endian bytes of setUint32 (the stored pattern is the value mod 2^32). -/
def u32le (v : Nat) : List Nat :=
  [v % 256, v / 256 % 256, v / 65536 % 256, v / 16777216 % 256]

/-- Little-endian bytes of setInt16: the argument is reduced mod 2^16 and the
two bytes of the resulting pattern are stored low byte first. -/
def i16le (v : Int) : List Nat := u16le (v % 65536).toNat

/-- Truncation toward zero of a rational, as ECMAScript performs on the float
argument of setInt16 before the mod 2^16 reduction. -/
def ratTrunc (q : ℚ) : Int := q.num.tdiv q.den

/-- Math.max(-1, Math.min(1, sample)) of the serializer loop. -/
def clampSample (x : ℚ) : ℚ := max (-1) (min 1 x)

/-- The scaling of the serializer loop: a negative sample is scaled by 0x8000,
a non-negative one by 0x7FFF. -/
def scaleSample (x : ℚ) : ℚ := if x < 0 then x * 32768 else x * 32767

/-- Bytes written for one sample of one channel at one frame. -/
def sampleBytes (buf : AudioBuffer) (i ch : Nat) : List Nat :=
  i16le (ratTrunc (scaleSample (clampSample (buf.channelData ch i))))

/-- Concatenation of the blocks f 0, f 1, ..., f (n-1), in loop order. -/
def concatMapRange (f : Nat → List Nat) : Nat → List Nat
  | 0 => []
  | n + 1 => concatMapRange f n ++ f n

/-- The data section of the serializer: the outer loop runs over frames, the
inner loop over channels, so samples are channel-interleaved. -/
def audioDataBytes (buf : AudioBuffer) : List Nat :=
  concatMapRange
    (fun i => concatMapRange (fun ch => sampleBytes buf i ch) buf.numberOfChannels)
    buf.length

/-- The 44 header bytes of audioBufferToCompressedAudio (page.tsx lines
384-396). Every DataView write in the source is contiguous with the previous
one, so the header is the concatenation of the writes in source order:
RIFF at 0, chunk size at 4, WAVE at 8, fmt-space at 12, subchunk size 16 at
16, format tag 1 at 20, channel count at 22, sample rate at 24, byte rate at
28, block align at 32, bit depth 16 at 34, data at 36, data length at 40. -/
def wavHeader (buf : AudioBuffer) : List Nat :=
  writeString ['R', 'I', 'F', 'F']
    ++ u32le (36 + buf.length * buf.numberOfChannels * 2)
    ++ writeString ['W', 'A', 'V', 'E']
    ++ writeString ['f', 'm', 't', ' ']
    ++ u32le 16
    ++ u16le 1
    ++ u16le buf.numberOfChannels
    ++ u32le buf.sampleRate
    ++ u32le (buf.sampleRate * buf.numberOfChannels * 2)
    ++ u16le (buf.numberOfChannels * 2)
    ++ u16le 16
    ++ writeString ['d', 'a', 't', 'a']
    ++ u32le (buf.length * buf.numberOfChannels * 2)

/-- audioBufferToCompressedAudio (page.tsx lines 366-415): the WAV header
followed by the interleaved 16-bit sample data, with the data loop starting
at offset 44. -/
def audioBufferToCompressedAudio (buf : AudioBuffer) : List Nat :=
  wavHeader buf ++ audioDataBytes buf

/-- Reads n bytes at a given offset of a byte list. -/
def bytesAt (l : List Nat) (off n : Nat) : List Nat := (l.drop off).take n

lemma concatMapRange_length (f : Nat → List Nat) (k : Nat)
    (hf : ∀ j, (f j).length = k) : ∀ n, (concatMapRange f n).length = n * k
  | 0 => by simp [concatMapRange]
  | n + 1 => by
      simp [concatMapRange, List.length_append, concatMapRange_length f k hf n,
        hf n, Nat.succ_mul]

lemma concatMapRange_drop_ex (f : Nat → List Nat) (k : Nat)
    (hf : ∀ j, (f j).length = k) :
    ∀ n i, i < n → ∃ t, (concatMapRange f n).drop (i * k) = f i ++ t := by
  intro n
  induction n with
  | zero => exact fun i hi => absurd hi (Nat.not_lt_zero i)
  | succ m ih =>
    intro i hi
    rcases Nat.lt_succ_iff_lt_or_eq.mp hi with hlt | heq
    · obtain ⟨t, ht⟩ := ih i hlt
      have hle : i * k ≤ (concatMapRange f m).length := by
        rw [concatMapRange_length f k hf m]
        exact Nat.mul_le_mul_right k (Nat.le_of_lt hlt)
      refine ⟨t ++ f m, ?_⟩
      rw [concatMapRange, List.drop_append_of_le_length hle, ht, List.append_assoc]
    · subst heq
      refine ⟨[], ?_⟩
      rw [concatMapRange, ← concatMapRange_length f k hf i, List.drop_left,
        List.append_nil]

lemma concatMapRange_bytesAt (f : Nat → List Nat) (k : Nat)
    (hf : ∀ j, (f j).length = k) (n i m t : Nat) (hin : i < n)
    (hmt : m + t ≤ k) :
    bytesAt (concatMapRange f n) (i * k + m) t = bytesAt (f i) m t := by
  obtain ⟨tail, htail⟩ := concatMapRange_drop_ex f k hf n i hin
  have hmk : m ≤ (f i).length := by rw [hf i]; omega
  have htk : t ≤ ((f i).drop m).length := by
    rw [List.length_drop, hf i]; omega
  unfold bytesAt
  rw [← List.drop_drop, htail,
    List.drop_append_of_le_length hmk, List.take_append_of_le_length htk]

lemma bytesAt_append (l1 l2 : List Nat) (n t : Nat) :
    bytesAt (l1 ++ l2) (l1.length + n) t = bytesAt l2 n t := by
  unfold bytesAt
  rw [← List.drop_drop, List.drop_left]

lemma wavHeader_length (buf : AudioBuffer) : (wavHeader buf).length = 44 := rfl

lemma audioDataBytes_length (buf : AudioBuffer) :
    (audioDataBytes buf).length
      = buf.length * (buf.numberOfChannels * 2) :=
  concatMapRange_length
    (fun i => concatMapRange (fun ch => sampleBytes buf i ch) buf.numberOfChannels)
    (buf.numberOfChannels * 2)
    (fun i => concatMapRange_length (fun ch => sampleBytes buf i ch) 2
      (fun _ => rfl) buf.numberOfChannels)
    buf.length

set_option maxHeartbeats 2000000 in
/-- C2: the serialized output has exactly 44 + length x channels x 2 bytes;
the first 44 bytes carry the RIFF, WAVE, fmt-space and data markers, format
tag 1 (PCM), the channel count, sample rate, byte rate, block align and bit
depth 16, and the data byte count, at their standard offsets; and the byte
pair of frame i, channel ch sits at offset 44 + (i x channels + ch) x 2 and
encodes the clamped, scaled, truncated sample little-endian. -/
theorem audioBufferToCompressedAudio_wav_layout (buf : AudioBuffer) :
    ((audioBufferToCompressedAudio buf).length
        = 44 + buf.length * buf.numberOfChannels * 2
      ∧ bytesAt (audioBufferToCompressedAudio buf) 0 4 = writeString ['R', 'I', 'F', 'F']
      ∧ bytesAt (audioBufferToCompressedAudio buf) 8 4 = writeString ['W', 'A', 'V', 'E']
      ∧ bytesAt (audioBufferToCompressedAudio buf) 12 4 = writeString ['f', 'm', 't', ' ']
      ∧ bytesAt (audioBufferToCompressedAudio buf) 36 4 = writeString ['d', 'a', 't', 'a']
      ∧ bytesAt (audioBufferToCompressedAudio buf) 20 2 = u16le 1
      ∧ bytesAt (audioBufferToCompressedAudio buf) 22 2 = u16le buf.numberOfChannels
      ∧ bytesAt (audioBufferToCompressedAudio buf) 24 4 = u32le buf.sampleRate
      ∧ bytesAt (audioBufferToCompressedAudio buf) 28 4
          = u32le (buf.sampleRate * buf.numberOfChannels * 2)
      ∧ bytesAt (audioBufferToCompressedAudio buf) 32 2 = u16le (buf.numberOfChannels * 2)
      ∧ bytesAt (audioBufferToCompressedAudio buf) 34 2 = u16le 16
      ∧ bytesAt (audioBufferToCompressedAudio buf) 40 4
          = u32le (buf.length * buf.numberOfChannels * 2))
    ∧ ∀ i ch, i < buf.length → ch < buf.numberOfChannels →
        bytesAt (audioBufferToCompressedAudio buf)
            (44 + (i * buf.numberOfChannels + ch) * 2) 2
          = i16le (ratTrunc (scaleSample (clampSample (buf.channelData ch i)))) := by
  constructor
  · refine ⟨?_, rfl, rfl, rfl, rfl, rfl, rfl, rfl, rfl, rfl, rfl, rfl⟩
    rw [audioBufferToCompressedAudio, List.length_append, wavHeader_length,
      audioDataBytes_length, Nat.mul_assoc]
  · intro i ch hi hch
    have h44 : (44 : Nat) = (wavHeader buf).length := rfl
    rw [audioBufferToCompressedAudio, h44, bytesAt_append]
    have hpos : (i * buf.numberOfChannels + ch) * 2
        = i * (buf.numberOfChannels * 2) + ch * 2 := by ring
    rw [hpos, audioDataBytes]
    rw [concatMapRange_bytesAt
      (fun j => concatMapRange (fun ch => sampleBytes buf j ch) buf.numberOfChannels)
      (buf.numberOfChannels * 2)
      (fun j => concatMapRange_length (fun ch => sampleBytes buf j ch) 2
        (fun _ => rfl) buf.numberOfChannels)
      buf.length i (ch * 2) 2 hi (by omega)]
    have hch2 : ch * 2 = ch * 2 + 0 := rfl
    rw [hch2, concatMapRange_bytesAt (fun c => sampleBytes buf i c) 2
      (fun _ => rfl) buf.numberOfChannels ch 0 2 hch (by omega)]
    rfl

/-- A concrete one-frame mono buffer used to witness C2. -/
def demoBuffer : AudioBuffer := ⟨1, 1, 2, fun _ _ => mkRat 1 2⟩

/-- Witness for C2 at the concrete one-frame buffer, instantiating the sample
clause at frame 0, channel 0. -/
theorem audioBufferToCompressedAudio_wav_layout_witness :
    (audioBufferToCompressedAudio demoBuffer).length
        = 44 + demoBuffer.length * demoBuffer.numberOfChannels * 2
    ∧ bytesAt (audioBufferToCompressedAudio demoBuffer)
          (44 + (0 * demoBuffer.numberOfChannels + 0) * 2) 2
        = i16le (ratTrunc (scaleSample (clampSample (demoBuffer.channelData 0 0)))) :=
  ⟨(audioBufferToCompressedAudio_wav_layout demoBuffer).1.1,
   (audioBufferToCompressedAudio_wav_layout demoBuffer).2 0 0 (by decide) (by decide)⟩

/-- The live AudioContext data that saveAudio reads: the context sample rate
and the channel count of the context destination. -/
structure LiveContextInfo where
  sampleRate : Nat
  destinationChannelCount : Nat
deriving DecidableEq

/-- The loaded media file as the page sees it: its decoded channel count and
the duration reported by the media element. -/
structure SourceFileInfo where
  numberOfChannels : Nat
  duration : ℚ
deriving DecidableEq

/-- Constructor arguments of an OfflineAudioContext. -/
structure OfflineContextParams where
  numberOfChannels : Nat
  length : Nat
  sampleRate : Nat
deriving DecidableEq

/-- ECMAScript ToUint32 conversion applied to the float length argument of the
OfflineAudioContext constructor: truncation toward zero, then mod 2^32. -/
def toUint32 (q : ℚ) : Nat := (ratTrunc q % 4294967296).toNat

/-- saveAudio (page.tsx lines 291-295) builds the offline context from
the live destination channel count, live sample rate times element duration,
and the live sample rate. -/
def saveAudioOfflineParams (ctx : LiveContextInfo) (duration : ℚ) :
    OfflineContextParams :=
  ⟨ctx.destinationChannelCount, toUint32 ((ctx.sampleRate : ℚ) * duration),
   ctx.sampleRate⟩

/-- Modelled platform semantics (Web Audio): decodeAudioData preserves the
channel count of the decoded file. -/
def decodeChannelCount (f : SourceFileInfo) : Nat := f.numberOfChannels

/-- Modelled platform semantics (Web Audio): decodeAudioData resamples the
decoded data to the sample rate of the context it runs on. -/
def decodeSampleRate (ctx : LiveContextInfo) (_f : SourceFileInfo) : Nat :=
  ctx.sampleRate

/-- Modelled platform semantics (Web Audio): startRendering yields a buffer
whose per-channel frame count is the length of the offline context. -/
def renderedBufferLength (p : OfflineContextParams) : Nat := p.length

/-- Counterexample to C3: for a mono file on a live context whose destination
has two channels, the offline context channel count (two) does not match the
channel count of the decode of the original file (one). -/
theorem saveAudioOfflineParams_channel_mismatch :
    ¬ ((saveAudioOfflineParams ⟨44100, 2⟩
          ((⟨1, 1⟩ : SourceFileInfo)).duration).numberOfChannels
        = decodeChannelCount ⟨1, 1⟩) := by
  decide

/-- C3 (amended): saveAudio sizes its offline context from the live context:
channel count equal to the live destination channel count (not to the decode
of the file), length equal to the ToUint32 truncation of live sample rate
times element duration, and sample rate equal to the live rate, which is also
the rate at which the file is decoded; so whenever duration times rate is a
whole number below 2^32 the rendered buffer has exactly that many samples per
channel. -/
theorem saveAudioOfflineParams_dims (ctx : LiveContextInfo) (f : SourceFileInfo) :
    saveAudioOfflineParams ctx f.duration
        = ⟨ctx.destinationChannelCount,
           toUint32 ((ctx.sampleRate : ℚ) * f.duration), ctx.sampleRate⟩
    ∧ (saveAudioOfflineParams ctx f.duration).sampleRate = decodeSampleRate ctx f
    ∧ renderedBufferLength (saveAudioOfflineParams ctx f.duration)
        = toUint32 ((ctx.sampleRate : ℚ) * f.duration)
    ∧ ∀ n : Nat, (ctx.sampleRate : ℚ) * f.duration = (n : ℚ) →
        n < 4294967296 →
        renderedBufferLength (saveAudioOfflineParams ctx f.duration) = n := by
  refine ⟨rfl, rfl, rfl, ?_⟩
  intro n hn hlt
  show toUint32 ((ctx.sampleRate : ℚ) * f.duration) = n
  rw [hn]
  simp only [toUint32, ratTrunc, Rat.num_natCast, Rat.den_natCast, Nat.cast_one,
    Int.tdiv_one]
  rw [Int.emod_eq_of_lt (Int.natCast_nonneg n) (by exact_mod_cast hlt)]
  exact Int.toNat_natCast n

/-- Witness for C3 (amended): a one-second stereo file at 44100 Hz renders
44100 samples per channel. -/
theorem saveAudioOfflineParams_dims_witness :
    renderedBufferLength
        (saveAudioOfflineParams ⟨44100, 2⟩ ((⟨2, 1⟩ : SourceFileInfo)).duration)
      = 44100 :=
  (saveAudioOfflineParams_dims ⟨44100, 2⟩ ⟨2, 1⟩).2.2.2 44100 (by simp) (by decide)

/-- The audioNodesRef record (page.tsx lines 40-48): one optional slot per
node plus the context slot. -/
structure AudioNodesRef where
  source : Option Unit
  bassFilter : Option BiquadConfig
  midFilter : Option BiquadConfig
  trebleFilter : Option BiquadConfig
  masterGain : Option ℚ
  comp : Option CompressorConfig
  context : Option Unit
deriving DecidableEq

/-- The initial ref value: every slot null. -/
def emptyAudioNodes : AudioNodesRef :=
  ⟨none, none, none, none, none, none, none⟩

/-- The ref value written by the single assignment at the end of a successful
initializeAudioContext run: every slot populated at once. -/
def populatedAudioNodes : AudioNodesRef :=
  ⟨some (), some initializeAudioContextNodes.bassFilter,
   some initializeAudioContextNodes.midFilter,
   some initializeAudioContextNodes.trebleFilter,
   some initializeAudioContextNodes.masterGain,
   some initializeAudioContextNodes.comp,
   some ()⟩

/-- initializeAudioContext (page.tsx lines 79-129) as a transition on the ref:
returns unchanged when the audio element is missing or a context already
exists; on an exception during construction the catch block leaves the ref
untouched, since the ref is assigned only once at the end; otherwise all
seven slots are populated by one assignment. -/
def initializeAudioContext (hasAudioEl ctorFails : Bool)
    (r : AudioNodesRef) : AudioNodesRef :=
  if hasAudioEl = false then r
  else if r.context.isSome then r
  else if ctorFails then r
  else populatedAudioNodes

/-- Ref values reachable from page load: the initial all-null record, plus
anything initializeAudioContext produces from a reachable value; no other
operation of the page writes the ref. -/
inductive NodesReachable : AudioNodesRef → Prop
  | initial : NodesReachable emptyAudioNodes
  | step {r : AudioNodesRef} (hasAudioEl ctorFails : Bool) :
      NodesReachable r → NodesReachable (initializeAudioContext hasAudioEl ctorFails r)

/-- Every slot of the ref is populated. -/
def allPopulated (r : AudioNodesRef) : Prop :=
  r.source.isSome ∧ r.bassFilter.isSome ∧ r.midFilter.isSome
    ∧ r.trebleFilter.isSome ∧ r.masterGain.isSome ∧ r.comp.isSome
    ∧ r.context.isSome

/-- Every slot of the ref is null. -/
def allEmpty (r : AudioNodesRef) : Prop :=
  r.source = none ∧ r.bassFilter = none ∧ r.midFilter = none
    ∧ r.trebleFilter = none ∧ r.masterGain = none ∧ r.comp = none
    ∧ r.context = none

/-- C9: every reachable ref value is fully populated or fully null; while a
context exists, initializeAudioContext is a no-op that recreates nothing; and
the graph is created by the first playback attempt on the initial state. -/
theorem audioNodes_all_or_nothing (r : AudioNodesRef) (h : NodesReachable r) :
    (allPopulated r ∨ allEmpty r)
    ∧ (r.context.isSome = true → ∀ hasAudioEl ctorFails,
        initializeAudioContext hasAudioEl ctorFails r = r)
    ∧ initializeAudioContext true false emptyAudioNodes = populatedAudioNodes := by
  refine ⟨?_, ?_, rfl⟩
  · induction h with
    | initial => exact Or.inr ⟨rfl, rfl, rfl, rfl, rfl, rfl, rfl⟩
    | step hasAudioEl ctorFails hr ih =>
        unfold initializeAudioContext
        split_ifs
        · exact ih
        · exact ih
        · exact ih
        · exact Or.inl ⟨rfl, rfl, rfl, rfl, rfl, rfl, rfl⟩
  · intro hctx hasAudioEl ctorFails
    unfold initializeAudioContext
    split_ifs <;> rfl

/-- Witness for C9 at the initial all-null reachable state. -/
theorem audioNodes_all_or_nothing_witness :
    (allPopulated emptyAudioNodes ∨ allEmpty emptyAudioNodes)
    ∧ (emptyAudioNodes.context.isSome = true → ∀ hasAudioEl ctorFails,
        initializeAudioContext hasAudioEl ctorFails emptyAudioNodes = emptyAudioNodes)
    ∧ initializeAudioContext true false emptyAudioNodes = populatedAudioNodes :=
  audioNodes_all_or_nothing emptyAudioNodes NodesReachable.initial

/-- The component state that saveAudio can read or leave behind: whether a
file (audio element source and live context) is loaded, the EQ settings, the
bypass flag, the live connection set and the playing flag. -/
structure ProgramState where
  fileLoaded : Bool
  eqSettings : EQSettings
  bypass : Bool
  liveEdges : List Edge
  isPlaying : Bool
deriving DecidableEq

/-- Observable outcome of one saveAudio call: the alerts raised, the files
handed to the download anchor, and the component state afterwards. -/
structure SaveOutcome where
  alerts : List String
  downloads : List (List Nat)
  final : ProgramState
deriving DecidableEq

/-- The awaited steps inside the try block of saveAudio (fetch, decode,
render), each modelled as an Except-valued oracle, followed by the
serialization; the first failure aborts the rest of the block. -/
def saveAudioPipeline (eqs : EQSettings)
    (fetchRes : Except Unit (List Nat))
    (decodeRes : List Nat → Except Unit AudioBuffer)
    (renderRes : OfflineGraph → AudioBuffer → Except Unit AudioBuffer) :
    Except Unit (List Nat) := do
  let bytes ← fetchRes
  let buffer ← decodeRes bytes
  let rendered ← renderRes (saveAudioOfflineGraph eqs) buffer
  pure (audioBufferToCompressedAudio rendered)

/-- saveAudio (page.tsx lines 280-363): alerts and returns when no file is
loaded; otherwise runs the pipeline inside try/catch, downloading the
serialized bytes on success and raising the single error alert on any
exception; the component state is never modified. -/
def saveAudio (st : ProgramState)
    (fetchRes : Except Unit (List Nat))
    (decodeRes : List Nat → Except Unit AudioBuffer)
    (renderRes : OfflineGraph → AudioBuffer → Except Unit AudioBuffer) :
    SaveOutcome :=
  if st.fileLoaded = false then
    ⟨["Please load an audio file first"], [], st⟩
  else
    match saveAudioPipeline st.eqSettings fetchRes decodeRes renderRes with
    | .ok wav => ⟨[], [wav], st⟩
    | .error _ => ⟨["Error saving audio. Please try again."], [], st⟩

/-- C7: saveAudio with no file loaded raises exactly the load-first alert and
downloads nothing; and whenever the pipeline raises, saveAudio raises exactly
one alert, downloads nothing, and leaves the whole component state (EQ
settings, live graph, playback) unchanged. -/
theorem saveAudio_error_behaviour (st : ProgramState)
    (fetchRes : Except Unit (List Nat))
    (decodeRes : List Nat → Except Unit AudioBuffer)
    (renderRes : OfflineGraph → AudioBuffer → Except Unit AudioBuffer) :
    (st.fileLoaded = false →
        saveAudio st fetchRes decodeRes renderRes
          = ⟨["Please load an audio file first"], [], st⟩)
    ∧ (saveAudioPipeline st.eqSettings fetchRes decodeRes renderRes
          = Except.error () →
        (saveAudio st fetchRes decodeRes renderRes).alerts.length = 1
        ∧ (saveAudio st fetchRes decodeRes renderRes).downloads = []
        ∧ (saveAudio st fetchRes decodeRes renderRes).final = st) := by
  constructor
  · intro h
    simp [saveAudio, h]
  · intro hp
    cases hfl : st.fileLoaded <;> simp [saveAudio, hfl, hp]

/-- A concrete state with no file loaded, used to witness C7. -/
def demoStateNoFile : ProgramState := ⟨false, ⟨0, 0, 0⟩, false, [], false⟩

/-- Witness for C7: exporting with nothing loaded yields the load-first alert
and no download. -/
theorem saveAudio_error_behaviour_witness :
    saveAudio demoStateNoFile (Except.error ()) (fun _ => Except.error ())
        (fun _ _ => Except.error ())
      = ⟨["Please load an audio file first"], [], demoStateNoFile⟩ :=
  (saveAudio_error_behaviour demoStateNoFile (Except.error ())
    (fun _ => Except.error ()) (fun _ _ => Except.error ())).1 rfl

/-- The bypass toggle of the UI: flips only the bypass field. -/
def setBypass (st : ProgramState) (b : Bool) : ProgramState :=
  ⟨st.fileLoaded, st.eqSettings, b, st.liveEdges, st.isPlaying⟩

/-- C10: the alerts and downloaded bytes of saveAudio are identical for any
two states that differ only in the bypass flag, because the offline render
always builds the full chain and never reads the flag. -/
theorem saveAudio_bypass_independent (st : ProgramState) (b1 b2 : Bool)
    (fetchRes : Except Unit (List Nat))
    (decodeRes : List Nat → Except Unit AudioBuffer)
    (renderRes : OfflineGraph → AudioBuffer → Except Unit AudioBuffer) :
    (saveAudio (setBypass st b1) fetchRes decodeRes renderRes).alerts
        = (saveAudio (setBypass st b2) fetchRes decodeRes renderRes).alerts
    ∧ (saveAudio (setBypass st b1) fetchRes decodeRes renderRes).downloads
        = (saveAudio (setBypass st b2) fetchRes decodeRes renderRes).downloads := by
  cases hfl : st.fileLoaded <;>
    cases hp : saveAudioPipeline st.eqSettings fetchRes decodeRes renderRes <;>
      simp [saveAudio, setBypass, hfl, hp]

/-- The lifecycle state of temporary object URLs for loaded files: the URL
currently held by objectUrlRef, a counter from which fresh URLs are drawn,
and the revocation calls made so far, in order. -/
structure UrlState where
  objectUrl : Option Nat
  nextUrl : Nat
  revoked : List Nat
deriving DecidableEq

/-- At mount: no URL held, none created, none revoked. -/
def initialUrlState : UrlState := ⟨none, 0, []⟩

/-- handleFileUpload (page.tsx lines 195-202): revokes the previously held
URL if any, then creates a fresh URL and holds it. -/
def handleFileUpload (s : UrlState) : UrlState :=
  ⟨some s.nextUrl, s.nextUrl + 1,
   match s.objectUrl with
   | some u => s.revoked ++ [u]
   | none => s.revoked⟩

/-- The unmount cleanup effect (page.tsx lines 71-77): revokes the held URL
if any; the result is the full revocation sequence of the session. -/
def unmountCleanup (s : UrlState) : List Nat :=
  match s.objectUrl with
  | some u => s.revoked ++ [u]
  | none => s.revoked

lemma handleFileUpload_iterate (n : Nat) :
    handleFileUpload^[n + 1] initialUrlState
      = ⟨some n, n + 1, List.range n⟩ := by
  induction n with
  | zero => rfl
  | succ m ih =>
      rw [Function.iterate_succ_apply', ih]
      simp [handleFileUpload, List.range_succ]

/-- C8: over any session of n file loads, the URLs revoked after teardown are
exactly the n created URLs, each revoked exactly once and in creation order;
and already after the next load the first n URLs are all revoked, so each
load revokes the previous URL exactly once before creating the new one. -/
theorem handleFileUpload_url_lifecycle (n : Nat) :
    unmountCleanup (handleFileUpload^[n] initialUrlState) = List.range n
    ∧ (unmountCleanup (handleFileUpload^[n] initialUrlState)).Nodup
    ∧ (handleFileUpload^[n + 1] initialUrlState).revoked = List.range n := by
  have hmain : unmountCleanup (handleFileUpload^[n] initialUrlState) = List.range n := by
    cases n with
    | zero => rfl
    | succ m =>
        rw [handleFileUpload_iterate m]
        simp [unmountCleanup, List.range_succ]
  refine ⟨hmain, ?_, ?_⟩
  · rw [hmain]; exact List.nodup_range n
  · rw [handleFileUpload_iterate n]

end ToneCraft
